import Mathlib

/-!
Verification development for the WFUBasketball play-by-play pipeline.

The definitions below are a shallow embedding of `src/xml_adapters.py` and
`src/basketball_parser.py`.  Python strings are Lean `String`s, Python ints are
Lean `Int`/`Nat`, Python floats are modelled by exact rationals (`ℚ`), Python
dicts keyed by strings are insertion-ordered association lists, and fallible
code returns `Option`.  CPython `set` objects are modelled as insertion-ordered
duplicate-free lists; where a theorem genuinely depends on the (hash-based,
unspecified) iteration order of a CPython set, the enumeration is passed in
explicitly (see `clamp_on_court`).
-/

/-- Model of Python string prefix match: `strMatch pat s` is true when `pat`
occurs at the very beginning of `s`. -/
def strMatch : List Char → List Char → Bool
  | [], _ => true
  | _ :: _, [] => false
  | a :: as, b :: bs => a == b && strMatch as bs

/-- Model of Python substring occurrence used by the `in` operator on strings. -/
def strOccurs (pat : List Char) : List Char → Bool
  | [] => strMatch pat []
  | b :: bs => strMatch pat (b :: bs) || strOccurs pat bs

/-- Model of the Python expression `pat in s` for strings. -/
def pyIn (pat s : String) : Bool := strOccurs pat.toList s.toList

/-- Lower-case an ASCII character, the per-character kernel of Python
`str.lower()` (all inputs in this development are ASCII). -/
def asciiLower (c : Char) : Char :=
  if 65 ≤ c.toNat ∧ c.toNat ≤ 90 then Char.ofNat (c.toNat + 32) else c

/-- Upper-case an ASCII character. -/
def asciiUpper (c : Char) : Char :=
  if 97 ≤ c.toNat ∧ c.toNat ≤ 122 then Char.ofNat (c.toNat - 32) else c

/-- ASCII alphabetic test. -/
def asciiAlpha (c : Char) : Bool :=
  (65 ≤ c.toNat && c.toNat ≤ 90) || (97 ≤ c.toNat && c.toNat ≤ 122)

/-- Model of Python `s.lower()` for ASCII text. -/
def pyLower (s : String) : String := String.mk (s.toList.map asciiLower)

/-- Whitespace test for `str.strip()` (the ASCII whitespace characters). -/
def isSpaceChar (c : Char) : Bool :=
  c == ' ' || c == '\t' || c == '\n' || c == '\r'

/-- Model of Python `s.strip()`: drop leading and trailing whitespace. -/
def pyStrip (s : String) : String :=
  String.mk (((s.toList.dropWhile isSpaceChar).reverse.dropWhile isSpaceChar).reverse)

/-- Split a character list at every occurrence of a separator character. -/
def splitOnChar (sep : Char) : List Char → List (List Char)
  | [] => [[]]
  | c :: rest =>
    let r := splitOnChar sep rest
    if c == sep then [] :: r
    else
      match r with
      | [] => [[c]]
      | g :: gs => (c :: g) :: gs

/-- Model of Python `s.split(sep)` for a one-character separator (the only
form the source uses: `split(',')`, `split(' ')`, `split('_')`,
`split(':')`). -/
def pySplitChar (sep : Char) (s : String) : List String :=
  (splitOnChar sep s.toList).map String.mk

/-- Model of `sep in s` / `str.__contains__` for a single character. -/
def pyContainsChar (c : Char) (s : String) : Bool := s.toList.contains c

/-- Model of Python `s.replace(a, b)` for one-character arguments (the source
only uses `replace(',', ' ')`). -/
def pyReplaceChar (a b : Char) (s : String) : String :=
  String.mk (s.toList.map (fun c => if c == a then b else c))

/-- Model of Python `sep.join(parts)`. -/
def pyJoin (sep : String) : List String → String
  | [] => ""
  | [x] => x
  | x :: y :: xs => x ++ sep ++ pyJoin sep (y :: xs)

/-- Numeric value of a list of decimal digit characters. -/
def digitsToNat (ds : List Char) : Nat := ds.foldl (fun a c => a * 10 + (c.toNat - 48)) 0

/-- Model of Python `int(s)` on a string: surrounding whitespace is stripped, an
optional sign is allowed, and the remainder must be a non-empty digit string;
any other input raises `ValueError`, modelled as `none`.  (Underscore-grouped
literals accepted by Python 3.6+ are not modelled; no input in this
development uses them.) -/
def pyIntStr (s : String) : Option Int :=
  match (pyStrip s).toList with
  | [] => none
  | '+' :: ds => if ds.isEmpty then none else if ds.all Char.isDigit then some (digitsToNat ds) else none
  | '-' :: ds => if ds.isEmpty then none else if ds.all Char.isDigit then some (-(digitsToNat ds : Int)) else none
  | ds => if ds.all Char.isDigit then some (digitsToNat ds) else none

/-- Helper for `pyTitle`: the Boolean records whether the previous character was
alphabetic. -/
def pyTitleGo : Bool → List Char → List Char
  | _, [] => []
  | prev, c :: cs =>
    let c' := if asciiAlpha c then (if prev then asciiLower c else asciiUpper c) else c
    c' :: pyTitleGo (asciiAlpha c) cs

/-- Model of Python `s.title()` restricted to ASCII text (all inputs in this
development are ASCII): each alphabetic character following a non-alphabetic
one is uppercased, all other alphabetic characters are lowercased. -/
def pyTitle (s : String) : String := String.mk (pyTitleGo false s.toList)

/-- Name formatting shared by `create_player_stats_dataframe` (lines 218-227)
and the lineup emission of `create_enhanced_play_by_play_dataframe`
(lines 633-640): convert a single "LAST,FIRST" name to "First Last" and apply
`str.title()`. -/
def format_player_name (n : String) : String :=
  let n' := if pyIn "," n then
      match pySplitChar ',' n with
      | [a, b] => pyStrip b ++ " " ++ pyStrip a
      | _ => n
    else n
  pyTitle n'

/-- First-match lookup in an insertion-ordered association list, the model of a
Python dict lookup. -/
def lookupA {α : Type} (l : List (String × α)) (k : String) : Option α :=
  (l.find? (fun kv => kv.1 == k)).map (fun kv => kv.2)

/-! ### The Genius Sports adapter (`src/xml_adapters.py`, `GeniusSportsAdapter`) -/

/-- Attributes of one `<play>` element as read by `_parse_genius_play`;
a missing attribute is the empty string (`play_elem.get(name, '')`).
`ptype` is the element's `type` attribute. -/
structure GeniusElem where
  vh : String
  time : String
  uni : String
  team : String
  checkname : String
  action : String
  ptype : String
  vscore : String
  hscore : String
  deriving DecidableEq

/-- Translation of `GeniusSportsAdapter._map_action_to_event_type`
(lines 271-305): case-insensitive substring dispatch on the vendor action
code; an unrecognized action falls through to the lower-cased action string
itself. -/
def map_action_to_event_type (action ptype : String) : String :=
  let al := pyLower action
  let tl := pyLower ptype
  if pyIn "good" al then
    (if pyIn "3ptr" tl then "shot" else if pyIn "ft" tl then "free_throw" else "shot")
  else if pyIn "miss" al then
    (if pyIn "ft" tl then "free_throw" else "shot")
  else if pyIn "rebound" al then "rebound"
  else if pyIn "assist" al then "assist"
  else if pyIn "steal" al then "steal"
  else if pyIn "block" al then "block"
  else if pyIn "turnover" al then "turnover"
  else if pyIn "foul" al then "foul"
  else if pyIn "sub" al then "substitution"
  else if pyIn "timeout" al then "timeout"
  else al

/-- Translation of `GeniusSportsAdapter._calculate_points` (lines 307-319). -/
def calculate_points (action ptype : String) : Int :=
  let al := pyLower action
  let tl := pyLower ptype
  if pyIn "good" al then
    (if pyIn "3ptr" tl then 3 else if pyIn "ft" tl then 1 else 2)
  else 0

/-- Translation of `GeniusSportsAdapter._map_shot_type` (lines 321-330). -/
def map_shot_type (ptype : String) : String :=
  let tl := pyLower ptype
  if pyIn "3ptr" tl then "3pt" else if pyIn "ft" tl then "free_throw" else "2pt"

/-- Translation of `GeniusSportsAdapter._build_description` (lines 332-368). -/
def build_description (action ptype checkname team : String) : String :=
  if checkname = "" then action ++ " " ++ ptype
  else if pyIn "good" (pyLower action) then
    (if pyIn "3ptr" (pyLower ptype) then checkname ++ " makes 3pt shot"
     else if pyIn "ft" (pyLower ptype) then checkname ++ " makes free throw"
     else checkname ++ " makes " ++ pyLower ptype ++ " shot")
  else if pyIn "miss" (pyLower action) then
    (if pyIn "ft" (pyLower ptype) then checkname ++ " misses free throw"
     else checkname ++ " misses " ++ pyLower ptype ++ " shot")
  else if pyIn "rebound" (pyLower action) then
    checkname ++ " " ++ (if pyIn "off" (pyLower ptype) then "offensive" else "defensive") ++ " rebound"
  else if pyIn "assist" (pyLower action) then checkname ++ " assist"
  else if pyIn "steal" (pyLower action) then checkname ++ " steals the ball"
  else if pyIn "block" (pyLower action) then checkname ++ " blocks shot"
  else if pyIn "turnover" (pyLower action) then checkname ++ " turnover"
  else if pyIn "foul" (pyLower action) then checkname ++ " foul"
  else if pyIn "sub" (pyLower action) then
    checkname ++ " " ++ (if pyIn "in" (pyLower ptype) then "enters" else "exits") ++ " the game"
  else if pyIn "timeout" (pyLower action) then team ++ " timeout"
  else checkname ++ " " ++ action ++ " " ++ ptype

/-- One row of the canonical play record produced by the Genius Sports adapter.
The last four fields (`team_name`, `assist_player_name`, `foul_player_name`,
`time_seconds`) are the columns added later by
`PlayByPlayProcessor.create_plays_dataframe`; the adapter leaves them at their
defaults. -/
structure GPlay where
  play_id : String
  period : Int
  time : String
  clock : String
  team_id : String
  player_id : String
  player_name : String
  event_type : String
  description : String
  points : Int
  shot_type : String
  shot_distance : String
  assist_player_id : String
  rebound_type : String
  foul_type : String
  foul_player_id : String
  substitution_in : String
  substitution_out : String
  timeout_team : String
  jumpball_won : String
  jumpball_player : String
  vh : String
  action : String
  play_type : String
  home_score : String
  away_score : String
  team_name : String
  assist_player_name : String
  foul_player_name : String
  time_seconds : Int
  deriving DecidableEq

/-- Translation of `GeniusSportsAdapter._parse_genius_play` (lines 200-269).
The parameter `h` is the value of the CPython expression `hash(play_elem)`:
`xml.etree` elements do not define `__hash__`, so this is the default
object-identity hash, an input supplied by the runtime rather than a function
of the document content.  `period` is always 1 because `play_elem` has no
`getparent` attribute, so the `hasattr` guard fails.  The `try/except` in the
source can never fire (every operation in the body is total), so the result is
always a record.  `home_score`/`away_score` keys exist only when both `vscore`
and `hscore` attributes are non-empty; the absent-key case is modelled as the
empty string, matching every downstream read (`play.get('home_score', '')`). -/
def parse_genius_play (h : Int) (e : GeniusElem) : GPlay :=
  { play_id := "play_" ++ toString h
    period := 1
    time := e.time
    clock := e.time
    team_id := e.team
    player_id := if e.team ≠ "" ∧ e.uni ≠ "" then e.team ++ "_" ++ e.uni else ""
    player_name := e.checkname
    event_type := map_action_to_event_type e.action e.ptype
    description := build_description e.action e.ptype e.checkname e.team
    points := calculate_points e.action e.ptype
    shot_type := map_shot_type e.ptype
    shot_distance := ""
    assist_player_id := ""
    rebound_type := if pyIn "OFF" e.ptype then "offensive" else if pyIn "DEF" e.ptype then "defensive" else ""
    foul_type := ""
    foul_player_id := ""
    substitution_in := if e.action = "SUB" ∧ e.ptype = "IN" then e.uni else ""
    substitution_out := if e.action = "SUB" ∧ e.ptype = "OUT" then e.uni else ""
    timeout_team := if e.action = "TIMEOUT" then e.team else ""
    jumpball_won := ""
    jumpball_player := ""
    vh := e.vh
    action := e.action
    play_type := e.ptype
    home_score := if e.vscore ≠ "" ∧ e.hscore ≠ "" then e.hscore else ""
    away_score := if e.vscore ≠ "" ∧ e.hscore ≠ "" then e.vscore else ""
    team_name := ""
    assist_player_name := ""
    foul_player_name := ""
    time_seconds := 0 }

/-- Worker for `genius_extract_plays`: `i` indexes the current element so that
each element receives its own runtime identity from `ident`. -/
def genius_extract_plays_from (ident : Nat → Int) : Nat → List GeniusElem → List GPlay
  | _, [] => []
  | i, e :: es =>
    let p := parse_genius_play (ident i) e
    if p.time = "20:00" ∧ p.event_type = "substitution" then
      genius_extract_plays_from ident (i + 1) es
    else
      p :: genius_extract_plays_from ident (i + 1) es

/-- Translation of `GeniusSportsAdapter.extract_plays` (lines 148-168): parse
every `<play>` element and drop period-start lineup announcements, i.e. any
substitution stamped at clock `20:00`.  `ident` assigns each element its
runtime object-identity hash. -/
def genius_extract_plays (ident : Nat → Int) (elems : List GeniusElem) : List GPlay :=
  genius_extract_plays_from ident 0 elems

/-- Record with the `play_id` field blanked, used to compare two parses of the
same document while ignoring the runtime-identity-derived play id. -/
def erase_play_id (p : GPlay) : GPlay := { p with play_id := "" }

/-! ### The generic adapter (`src/xml_adapters.py`, `GenericXMLAdapter`) -/

/-- A child element of a `<play>` element (coordinates / score). -/
structure GenChild where
  tag : String
  attrs : List (String × String)
  deriving DecidableEq

/-- A `<play>` element as seen by the generic adapter: its attribute map and
its child elements. -/
structure GenElem where
  attrs : List (String × String)
  children : List GenChild
  deriving DecidableEq

/-- Model of `elem.get(name, default)` for string defaults. -/
def attrD (attrs : List (String × String)) (k d : String) : String :=
  (lookupA attrs k).getD d

/-- The play dictionary built by `GenericXMLAdapter._parse_play_element`
(lines 459-498).  Unlike the Genius Sports adapter's records, it has no
`player_name` key.  The `x_coord`/`y_coord`/`home_score`/`away_score` keys are
present only when a corresponding child element exists; the absent-key case is
modelled as the empty string. -/
structure GenPlay where
  play_id : String
  period : Int
  time : String
  clock : String
  team_id : String
  player_id : String
  event_type : String
  description : String
  points : Int
  shot_type : String
  shot_distance : String
  assist_player_id : String
  rebound_type : String
  foul_type : String
  foul_player_id : String
  substitution_in : String
  substitution_out : String
  timeout_team : String
  jumpball_won : String
  jumpball_player : String
  x_coord : String
  y_coord : String
  home_score : String
  away_score : String
  deriving DecidableEq

/-- Child-element pass of `_parse_play_element` (lines 486-492); a later child
overwrites the keys written by an earlier one. -/
def gen_update_child (p : GenPlay) (c : GenChild) : GenPlay :=
  if pyLower c.tag = "coordinates" ∨ pyLower c.tag = "location" then
    { p with x_coord := attrD c.attrs "x" "", y_coord := attrD c.attrs "y" "" }
  else if pyLower c.tag = "score" ∨ pyLower c.tag = "scoring" then
    { p with home_score := attrD c.attrs "home" "", away_score := attrD c.attrs "away" "" }
  else p

/-- Translation of `GenericXMLAdapter._parse_play_element` (lines 459-498).
The dict literal evaluates `int(play_elem.get('period', 1))` and
`int(play_elem.get('points', 0))`; when the attribute is absent `int` is
applied to the integer default and cannot fail, but a present non-integer
attribute raises `ValueError`, which the `except` clause turns into `None`. -/
def parse_play_element (e : GenElem) : Option GenPlay :=
  let periodR : Option Int := match lookupA e.attrs "period" with
    | none => some 1
    | some s => pyIntStr s
  let pointsR : Option Int := match lookupA e.attrs "points" with
    | none => some 0
    | some s => pyIntStr s
  match periodR, pointsR with
  | some period, some points =>
    some (e.children.foldl gen_update_child
      { play_id := attrD e.attrs "id" ""
        period := period
        time := attrD e.attrs "time" ""
        clock := attrD e.attrs "clock" ""
        team_id := attrD e.attrs "team_id" ""
        player_id := attrD e.attrs "player_id" ""
        event_type := attrD e.attrs "event_type" ""
        description := attrD e.attrs "description" ""
        points := points
        shot_type := attrD e.attrs "shot_type" ""
        shot_distance := attrD e.attrs "shot_distance" ""
        assist_player_id := attrD e.attrs "assist_player_id" ""
        rebound_type := attrD e.attrs "rebound_type" ""
        foul_type := attrD e.attrs "foul_type" ""
        foul_player_id := attrD e.attrs "foul_player_id" ""
        substitution_in := attrD e.attrs "substitution_in" ""
        substitution_out := attrD e.attrs "substitution_out" ""
        timeout_team := attrD e.attrs "timeout_team" ""
        jumpball_won := attrD e.attrs "jumpball_won" ""
        jumpball_player := attrD e.attrs "jumpball_player" ""
        x_coord := ""
        y_coord := ""
        home_score := ""
        away_score := "" })
  | _, _ => none

/-- Translation of `GenericXMLAdapter.extract_plays` (lines 445-457): every
play element is parsed, and an element whose parse returned `None` is skipped
silently; no filtering of period-start substitution events is performed. -/
def generic_extract_plays (elems : List GenElem) : List GenPlay :=
  elems.filterMap parse_play_element

/-! ### The processor (`src/basketball_parser.py`, `PlayByPlayProcessor`) -/

/-- Entry of `parser.players`, as built by
`GeniusSportsAdapter.extract_players` (lines 112-146). -/
structure PInfo where
  team_id : String
  name : String
  jersey : String
  position : String
  checkname : String
  code : String
  games_played : Nat
  games_started : Nat
  deriving DecidableEq

/-- Entry of `parser.teams`, as built by `GeniusSportsAdapter.extract_teams`
(lines 89-110); the `players` sub-dict is irrelevant to the properties proved
here and omitted. -/
structure TeamInfo where
  name : String
  code : String
  vh : String
  record : String
  deriving DecidableEq

/-- Translation of `PlayByPlayProcessor._time_to_seconds` (lines 174-183):
`MM:SS` to seconds; the tuple unpacking raises unless the split has exactly two
integer parts, and every failure is absorbed to 0. -/
def time_to_seconds (s : String) : Int :=
  if s = "" ∨ ¬ pyContainsChar ':' s then 0
  else
    match pySplitChar ':' s with
    | [m, sec] =>
      match pyIntStr m, pyIntStr sec with
      | some mv, some sv => mv * 60 + sv
      | _, _ => 0
    | _ => 0

/-- Column additions of `PlayByPlayProcessor.create_plays_dataframe`
(lines 151-172): team name, assist/foul player names and elapsed seconds; row
order is preserved. -/
def enrich_play (teams : List (String × TeamInfo)) (players : List (String × PInfo))
    (p : GPlay) : GPlay :=
  { p with
    team_name := ((lookupA teams p.team_id).map (fun t => t.name)).getD ""
    assist_player_name := ((lookupA players p.assist_player_id).map (fun i => i.name)).getD ""
    foul_player_name := ((lookupA players p.foul_player_id).map (fun i => i.name)).getD ""
    time_seconds := time_to_seconds p.time }

/-- Translation of `PlayByPlayProcessor.create_plays_dataframe`. -/
def create_plays_dataframe (teams : List (String × TeamInfo)) (players : List (String × PInfo))
    (plays : List GPlay) : List GPlay :=
  plays.map (enrich_play teams players)

/-- One player accumulator of `create_player_stats_dataframe` (lines 242-268).
Counters only ever increase by one, so they are `Nat`; `points` accumulates the
play's `points` column (`Int`); the minutes heuristic and the derived
percentages are Python floats, modelled as exact rationals. -/
structure PStats where
  player_id : String
  player_name : String
  team_id : String
  team_name : String
  jersey : String
  position : String
  minutes_played : ℚ
  points : Int
  field_goals_made : Nat
  field_goals_attempted : Nat
  three_points_made : Nat
  three_points_attempted : Nat
  free_throws_made : Nat
  free_throws_attempted : Nat
  rebounds : Nat
  offensive_rebounds : Nat
  defensive_rebounds : Nat
  assists : Nat
  steals : Nat
  blocks : Nat
  turnovers : Nat
  fouls : Nat
  field_goal_percentage : ℚ
  three_point_percentage : ℚ
  free_throw_percentage : ℚ
  deriving DecidableEq

/-- Name extraction from the description column (lines 206-213): first token of
the description with commas replaced by spaces, when the description is
non-empty and contains a space. -/
def desc_first_token (d : String) : String :=
  if d ≠ "" ∧ pyIn " " d then pyReplaceChar ',' ' ' ((pySplitChar ' ' d).getD 0 "") else ""

/-- Lazy creation of a player accumulator (lines 198-268): resolve the display
name through the fallback chain (play column, roster entry, description,
player id), format it, and start all counters at zero. -/
def init_player_stats (players : List (String × PInfo)) (p : GPlay) : PStats :=
  let info := lookupA players p.player_id
  let n0 := p.player_name
  let n1 := if n0 = "" then (match info with | some i => i.name | none => "") else n0
  let n2 := if n1 = "" then desc_first_token p.description else n1
  let n3 := if n2 = "" then p.player_id else n2
  let nm := if n3 ≠ "" ∧ n3 ≠ p.player_id then format_player_name n3 else n3
  { player_id := p.player_id
    player_name := nm
    team_id := p.team_id
    team_name := p.team_name
    jersey := (info.map (fun i => i.jersey)).getD ""
    position := (info.map (fun i => i.position)).getD ""
    minutes_played := 0
    points := 0
    field_goals_made := 0
    field_goals_attempted := 0
    three_points_made := 0
    three_points_attempted := 0
    free_throws_made := 0
    free_throws_attempted := 0
    rebounds := 0
    offensive_rebounds := 0
    defensive_rebounds := 0
    assists := 0
    steals := 0
    blocks := 0
    turnovers := 0
    fouls := 0
    field_goal_percentage := 0
    three_point_percentage := 0
    free_throw_percentage := 0 }

/-- Scoring update of lines 273-275: any play with positive `points` adds them
to the player's points total, before the event-kind dispatch. -/
def upd_points (p : GPlay) (s : PStats) : PStats :=
  if 0 < p.points then { s with points := s.points + p.points } else s

/-- The `shot` branch of lines 277-286, translated with the source's nesting:
the three-point counters are touched only inside the `points > 0` branch, and
a made non-three-point shot still increments `three_points_attempted`. -/
def upd_shot (p : GPlay) (s : PStats) : PStats :=
  let s1 := { s with field_goals_attempted := s.field_goals_attempted + 1 }
  if 0 < p.points then
    let s2 := { s1 with field_goals_made := s1.field_goals_made + 1 }
    if pyIn "3pt" (pyLower p.shot_type) || p.points == 3 then
      { s2 with three_points_made := s2.three_points_made + 1
                three_points_attempted := s2.three_points_attempted + 1 }
    else { s2 with three_points_attempted := s2.three_points_attempted + 1 }
  else s1

/-- The `free_throw` branch of lines 288-291. -/
def upd_ft (p : GPlay) (s : PStats) : PStats :=
  let s1 := { s with free_throws_attempted := s.free_throws_attempted + 1 }
  if 0 < p.points then { s1 with free_throws_made := s1.free_throws_made + 1 } else s1

/-- The `rebound` branch of lines 293-298. -/
def upd_rebound (p : GPlay) (s : PStats) : PStats :=
  let s1 := { s with rebounds := s.rebounds + 1 }
  if pyIn "offensive" (pyLower p.rebound_type) then
    { s1 with offensive_rebounds := s1.offensive_rebounds + 1 }
  else
    { s1 with defensive_rebounds := s1.defensive_rebounds + 1 }

/-- Counter updates of `create_player_stats_dataframe` for one play
(lines 270-313), translated branch for branch: the substring dispatch on the
lower-cased event type. -/
def update_player_stats (p : GPlay) (s : PStats) : PStats :=
  let et := pyLower p.event_type
  let s := upd_points p s
  if pyIn "shot" et then upd_shot p s
  else if pyIn "free_throw" et then upd_ft p s
  else if pyIn "rebound" et then upd_rebound p s
  else if pyIn "assist" et then { s with assists := s.assists + 1 }
  else if pyIn "steal" et then { s with steals := s.steals + 1 }
  else if pyIn "block" et then { s with blocks := s.blocks + 1 }
  else if pyIn "turnover" et then { s with turnovers := s.turnovers + 1 }
  else if pyIn "foul" et then { s with fouls := s.fouls + 1 }
  else s

/-- Update the first entry with the given player id, the model of a Python dict
entry mutation. -/
def mod_first (l : List PStats) (pid : String) (f : PStats → PStats) : List PStats :=
  match l with
  | [] => []
  | s :: r => if s.player_id == pid then f s :: r else s :: mod_first r pid f

/-- One iteration of the play loop of `create_player_stats_dataframe`
(lines 193-313): plays without a player id are skipped, an unseen player gets a
fresh accumulator, then the counters for this play are applied. -/
def stats_step (players : List (String × PInfo)) (acc : List PStats) (p : GPlay) : List PStats :=
  if p.player_id = "" then acc
  else
    let acc := if ((acc.find? (fun s => s.player_id == p.player_id)).isSome : Bool) then acc
      else acc ++ [init_player_stats players p]
    mod_first acc p.player_id (update_player_stats p)

/-- The full counting fold of `create_player_stats_dataframe`. -/
def fold_player_stats (players : List (String × PInfo)) (plays : List GPlay) : List PStats :=
  plays.foldl (stats_step players) []

/-- Increment an insertion-ordered counter map, the model of the
`player_play_counts` dict. -/
def bump_count : List (String × Nat) → String → List (String × Nat)
  | [], k => [(k, 1)]
  | (k0, n) :: r, k => if k0 == k then (k0, n + 1) :: r else (k0, n) :: bump_count r k

/-- The per-player play counts of `_calculate_minutes_played` (lines 345-352). -/
def play_counts (stats : List PStats) (plays : List GPlay) : List (String × Nat) :=
  plays.foldl
    (fun c p =>
      if p.player_id ≠ "" ∧ ((stats.find? (fun s => s.player_id == p.player_id)).isSome : Bool) then
        bump_count c p.player_id
      else c)
    []

/-- Translation of `PlayByPlayProcessor._calculate_minutes_played`
(lines 340-374): minutes are estimated as the player's share of recorded plays
relative to the most active player, scaled by 40 · 0.8 and clamped to
[1, 40].  Python float arithmetic is modelled by exact rationals. -/
def calculate_minutes_played (stats : List PStats) (plays : List GPlay) : List PStats :=
  match play_counts stats plays with
  | [] => stats
  | counts =>
    let maxPlays := (counts.map (fun kv => kv.2)).foldl Nat.max 0
    counts.foldl
      (fun st kv =>
        if ((st.find? (fun s => s.player_id == kv.1)).isSome : Bool) then
          mod_first st kv.1 (fun s =>
            let est : ℚ := if 0 < maxPlays then ((kv.2 : ℚ) / (maxPlays : ℚ)) * 40 * (4 / 5) else 0
            let est := max est 1
            let est := min est 40
            { s with minutes_played := est })
        else st)
      stats

/-- Percentage finalisation of `create_player_stats_dataframe`
(lines 318-335): made/attempted when attempted is positive, else 0.0. -/
def finalize_player (s : PStats) : PStats :=
  { s with
    field_goal_percentage :=
      if 0 < s.field_goals_attempted then (s.field_goals_made : ℚ) / (s.field_goals_attempted : ℚ) else 0
    three_point_percentage :=
      if 0 < s.three_points_attempted then (s.three_points_made : ℚ) / (s.three_points_attempted : ℚ) else 0
    free_throw_percentage :=
      if 0 < s.free_throws_attempted then (s.free_throws_made : ℚ) / (s.free_throws_attempted : ℚ) else 0 }

/-- Translation of `PlayByPlayProcessor.create_player_stats_dataframe`
(lines 185-338): count, estimate minutes, then finalise percentages once. -/
def create_player_stats_dataframe (players : List (String × PInfo)) (plays : List GPlay) :
    List PStats :=
  (calculate_minutes_played (fold_player_stats players plays) plays).map finalize_player

/-- One team accumulator of `create_team_stats_dataframe` (lines 386-405). -/
structure TStats where
  team_id : String
  team_name : String
  points : Int
  field_goals_made : Nat
  field_goals_attempted : Nat
  three_points_made : Nat
  three_points_attempted : Nat
  free_throws_made : Nat
  free_throws_attempted : Nat
  rebounds : Nat
  offensive_rebounds : Nat
  defensive_rebounds : Nat
  assists : Nat
  steals : Nat
  blocks : Nat
  turnovers : Nat
  fouls : Nat
  field_goal_percentage : ℚ
  three_point_percentage : ℚ
  free_throw_percentage : ℚ
  deriving DecidableEq

/-- Fresh zero team accumulator created on first sight of a team (lines
386-405); id and display name are taken from the triggering player row. -/
def team_zero (p : PStats) : TStats :=
  { team_id := p.team_id
    team_name := p.team_name
    points := 0
    field_goals_made := 0
    field_goals_attempted := 0
    three_points_made := 0
    three_points_attempted := 0
    free_throws_made := 0
    free_throws_attempted := 0
    rebounds := 0
    offensive_rebounds := 0
    defensive_rebounds := 0
    assists := 0
    steals := 0
    blocks := 0
    turnovers := 0
    fouls := 0
    field_goal_percentage := 0
    three_point_percentage := 0
    free_throw_percentage := 0 }

/-- Addition of one player row into a team accumulator: the stat list of
lines 408-412. -/
def team_add (t : TStats) (p : PStats) : TStats :=
  { t with
    points := t.points + p.points
    field_goals_made := t.field_goals_made + p.field_goals_made
    field_goals_attempted := t.field_goals_attempted + p.field_goals_attempted
    three_points_made := t.three_points_made + p.three_points_made
    three_points_attempted := t.three_points_attempted + p.three_points_attempted
    free_throws_made := t.free_throws_made + p.free_throws_made
    free_throws_attempted := t.free_throws_attempted + p.free_throws_attempted
    rebounds := t.rebounds + p.rebounds
    offensive_rebounds := t.offensive_rebounds + p.offensive_rebounds
    defensive_rebounds := t.defensive_rebounds + p.defensive_rebounds
    assists := t.assists + p.assists
    steals := t.steals + p.steals
    blocks := t.blocks + p.blocks
    turnovers := t.turnovers + p.turnovers
    fouls := t.fouls + p.fouls }

/-- One iteration of the player loop of `create_team_stats_dataframe`
(lines 383-412): create the team accumulator on first sight, then add this
player's stats into it. -/
def team_upsert : List TStats → PStats → List TStats
  | [], p => [team_add (team_zero p) p]
  | t :: r, p => if t.team_id == p.team_id then team_add t p :: r else t :: team_upsert r p

/-- Team percentage finalisation (lines 414-431). -/
def finalize_team (t : TStats) : TStats :=
  { t with
    field_goal_percentage :=
      if 0 < t.field_goals_attempted then (t.field_goals_made : ℚ) / (t.field_goals_attempted : ℚ) else 0
    three_point_percentage :=
      if 0 < t.three_points_attempted then (t.three_points_made : ℚ) / (t.three_points_attempted : ℚ) else 0
    free_throw_percentage :=
      if 0 < t.free_throws_attempted then (t.free_throws_made : ℚ) / (t.free_throws_attempted : ℚ) else 0 }

/-- Translation of `PlayByPlayProcessor.create_team_stats_dataframe`
(lines 376-434): team totals are obtained purely by summing the player rows of
that team, then percentages are derived. -/
def create_team_stats_dataframe (ps : List PStats) : List TStats :=
  (ps.foldl team_upsert []).map finalize_team

/-! ### Lineup reconstruction
(`PlayByPlayProcessor.create_enhanced_play_by_play_dataframe`, lines 499-815) -/

/-- Model of `set.add`: CPython sets are modelled as insertion-ordered
duplicate-free lists (see the file header for the iteration-order caveat). -/
def pyset_add (s : List String) (x : String) : List String :=
  if x ∈ s then s else s ++ [x]

/-- Model of `set.remove` on the list representation. -/
def pyset_remove (s : List String) (x : String) : List String :=
  s.filter (fun y => y != x)

/-- One entry of the starting-lineup lists produced by
`GeniusSportsAdapter._extract_starting_lineups_from_players` (lines 170-194). -/
structure StartEntry where
  player_id : String
  player_name : String
  jersey : String
  position : String
  deriving DecidableEq

/-- The player-name resolution chain of the lineup emission (lines 608-640 for
the home side, 645-677 for the away side): roster entry, then starting-lineup
entry, then a scan of the plays table for a row of this player with a
non-empty name, then the jersey-number fallback `Player #n` (only for a
non-empty id containing an underscore).  An empty result is dropped, which is
modelled by `none`; a found name is comma-normalised and title-cased. -/
def resolve_lineup_name (players : List (String × PInfo)) (startList : List StartEntry)
    (plays : List GPlay) (pid : String) : Option String :=
  let n1 := match lookupA players pid with
    | some info => info.name
    | none =>
      match startList.find? (fun e => e.player_id == pid) with
      | some e => e.player_name
      | none => ""
  let n2 := if n1 = "" then
      (match plays.find? (fun r => r.player_id == pid && r.player_name != "") with
       | some r => r.player_name
       | none => "")
    else n1
  let n3 := if n2 = "" ∧ pid ≠ "" then
      (if pyContainsChar '_' pid then "Player #" ++ (pySplitChar '_' pid).getD 1 "" else "")
    else n2
  if n3 = "" then none else some (format_player_name n3)

/-- Base lineup-name emission (lines 607-641): walk the first five on-court
player ids and append each resolvable name. -/
def emit_base_names (resolve : String → Option String) (cur : List String) : List String :=
  (cur.take 5).foldl
    (fun names pid => match resolve pid with | some nm => names ++ [nm] | none => names) []

/-- One pass of the inner `for player_id in all_players` loop of the under-fill
recovery (lines 683-729): skip players already on court, append the first
resolvable name and stop, make no change when nothing resolves. -/
def fill_pass (resolve : String → Option String) : List String → List String → List String → List String
  | [], _, names => names
  | pid :: rest, cur, names =>
    if 5 ≤ names.length then names
    else if pid ∈ cur then fill_pass resolve rest cur names
    else
      match resolve pid with
      | some nm => names ++ [nm]
      | none => fill_pass resolve rest cur names

/-- The `while len(names) < 5` under-fill loop (lines 681-729), with explicit
fuel: `none` means the loop is still running when the fuel runs out.  The
source loop has no other exit, so `none` for every fuel value is
non-termination of the source. -/
def fill_loop (resolve : String → Option String) (allP cur : List String) :
    Nat → List String → Option (List String)
  | fuel, names =>
    if names.length < 5 then
      match fuel with
      | 0 => none
      | f + 1 => fill_loop resolve allP cur f (fill_pass resolve allP cur names)
    else some names

/-- The synthetic-placeholder stage (lines 783-791): pad with `Player #n` up to
five entries.  (Reachable in the source only if the preceding `while` loop
exits, which requires five names already.) -/
def placeholder_fill (names : List String) : List String :=
  if names.length < 5 then
    names ++ (List.range (5 - names.length)).map (fun i => "Player #" ++ toString (i + 1))
  else names

/-- Translation of `PlayByPlayProcessor._create_enhanced_event_description`
(lines 817-880). -/
def create_enhanced_event_description (p : GPlay) : String :=
  let et := pyLower p.event_type
  if pyIn "shot" et then
    (if 0 < p.points then
      (if p.shot_type = "3pt" then
        (if p.assist_player_name ≠ "" then
          "Made 3PT FG by " ++ p.player_name ++ " for " ++ p.team_name ++
            " (assisted by " ++ p.assist_player_name ++ ")"
         else "Made 3PT FG by " ++ p.player_name ++ " for " ++ p.team_name)
       else if p.shot_type = "free_throw" then
        "Made Free Throw by " ++ p.player_name ++ " for " ++ p.team_name
       else if p.assist_player_name ≠ "" then
        "Made 2PT FG by " ++ p.player_name ++ " for " ++ p.team_name ++
          " (assisted by " ++ p.assist_player_name ++ ")"
       else "Made 2PT FG by " ++ p.player_name ++ " for " ++ p.team_name)
     else if p.shot_type = "3pt" then
      "Missed 3PT FG by " ++ p.player_name ++ " for " ++ p.team_name
     else if p.shot_type = "free_throw" then
      "Missed Free Throw by " ++ p.player_name ++ " for " ++ p.team_name
     else "Missed 2PT FG by " ++ p.player_name ++ " for " ++ p.team_name)
  else if pyIn "rebound" et then
    (if p.rebound_type = "offensive" then p.player_name ++ " Offensive Rebound for " ++ p.team_name
     else p.player_name ++ " Defensive Rebound for " ++ p.team_name)
  else if pyIn "assist" et then "Assist by " ++ p.player_name ++ " for " ++ p.team_name
  else if pyIn "steal" et then p.player_name ++ " Steal for " ++ p.team_name
  else if pyIn "block" et then p.player_name ++ " Blocked Shot for " ++ p.team_name
  else if pyIn "turnover" et then p.player_name ++ " Turnover for " ++ p.team_name
  else if pyIn "foul" et then p.player_name ++ " Foul for " ++ p.team_name
  else if pyIn "substitution" et then
    (if p.substitution_in ≠ "" then p.player_name ++ " enters the game for " ++ p.team_name
     else p.player_name ++ " exits the game for " ++ p.team_name)
  else if pyIn "timeout" et then p.team_name ++ " Timeout"
  else p.description

/-- One row of the enhanced play-by-play table (lines 793-811). -/
structure EnhRow where
  play_id : String
  game_clock : String
  event_description : String
  team : String
  player : String
  points : Int
  home_score : String
  away_score : String
  home_lineup : String
  away_lineup : String
  event_type : String
  shot_type : String
  assist_player : String
  rebound_type : String
  foul_type : String
  foul_player : String
  time_seconds : Int
  deriving DecidableEq

/-- The on-court clamp of lines 591-597: `set(list(current_lineup)[:5])`.
The argument is the enumeration of the set produced by `list(...)`; in CPython
this is the hash-table iteration order of the set, which is unrelated to
insertion order (and, with string hash randomisation, not even stable across
processes), so it is an explicit input here. -/
def clamp_on_court (setOrder : List String) : List String :=
  if 5 < setOrder.length then setOrder.take 5 else setOrder

/-- The mutable lineup state of the event loop: current on-court sets and the
ever-observed player sets for each side. -/
structure LState where
  curHome : List String
  curAway : List String
  allHome : List String
  allAway : List String
  deriving DecidableEq

/-- Inputs of `create_enhanced_play_by_play_dataframe`: the parser's roster and
starting-lineup data, the home/away ids from the game info (with their source
defaults), and the enriched plays table. -/
structure EnhInput where
  players : List (String × PInfo)
  startHome : List StartEntry
  startAway : List StartEntry
  homeId : String
  awayId : String
  plays : List GPlay

/-- The substitution transition of the event loop (lines 572-597): description
keywords decide the direction, the on-court and ever-observed sets are
updated, and both on-court sets are clamped to five.  In this embedding the
clamp receives the insertion-order enumeration of the set (see
`clamp_on_court` for the faithful order-abstract form). -/
def handle_substitution (inp : EnhInput) (st : LState) (p : GPlay) : LState :=
  if pyIn "substitution" (pyLower p.event_type) then
    let pid := p.player_id
    let d := pyLower p.description
    let st :=
      if pyIn "enters" d || pyIn "in" d then
        (if p.team_id = inp.homeId then
          { st with curHome := pyset_add st.curHome pid, allHome := pyset_add st.allHome pid }
         else if p.team_id = inp.awayId then
          { st with curAway := pyset_add st.curAway pid, allAway := pyset_add st.allAway pid }
         else st)
      else if pyIn "exits" d || pyIn "out" d then
        (if p.team_id = inp.homeId ∧ pid ∈ st.curHome then
          { st with curHome := pyset_remove st.curHome pid }
         else if p.team_id = inp.awayId ∧ pid ∈ st.curAway then
          { st with curAway := pyset_remove st.curAway pid }
         else st)
      else st
    { st with curHome := clamp_on_court st.curHome, curAway := clamp_on_court st.curAway }
  else st

/-- Production of one enhanced row (lines 599-813): emit the base lineup
names, run the under-fill loop for each side (propagating its potential
non-termination), pad with placeholders, and assemble the record. -/
def enh_row (inp : EnhInput) (fuel : Nat) (st : LState) (p : GPlay) : Option EnhRow :=
  match fill_loop (resolve_lineup_name inp.players inp.startHome inp.plays) st.allHome st.curHome
      fuel (emit_base_names (resolve_lineup_name inp.players inp.startHome inp.plays) st.curHome) with
  | none => none
  | some hn1 =>
    match fill_loop (resolve_lineup_name inp.players inp.startAway inp.plays) st.allAway st.curAway
        fuel (emit_base_names (resolve_lineup_name inp.players inp.startAway inp.plays) st.curAway) with
    | none => none
    | some an1 =>
      some { play_id := p.play_id
             game_clock := p.time
             event_description := create_enhanced_event_description p
             team := p.team_name
             player := p.player_name
             points := p.points
             home_score := p.home_score
             away_score := p.away_score
             home_lineup := pyJoin ", " (placeholder_fill hn1)
             away_lineup := pyJoin ", " (placeholder_fill an1)
             event_type := p.event_type
             shot_type := p.shot_type
             assist_player := p.assist_player_name
             rebound_type := p.rebound_type
             foul_type := p.foul_type
             foul_player := p.foul_player_name
             time_seconds := p.time_seconds }

/-- The event loop of `create_enhanced_play_by_play_dataframe` (lines
568-813): per play, apply the substitution transition and emit a row; `none`
propagates an under-fill loop that never finishes. -/
def enh_go (inp : EnhInput) (fuel : Nat) : LState → List GPlay → Option (List EnhRow)
  | _, [] => some []
  | st, p :: rest =>
    match enh_row inp fuel (handle_substitution inp st p) p with
    | none => none
    | some row =>
      match enh_go inp fuel (handle_substitution inp st p) rest with
      | none => none
      | some rows => some (row :: rows)

/-- Initial lineups (lines 511-549): declared starters when available,
otherwise the first five distinct player ids seen for the side within the
first twenty plays. -/
def init_lineups (inp : EnhInput) : List String × List String :=
  let ch := inp.startHome.foldl (fun s e => pyset_add s e.player_id) []
  let ca := inp.startAway.foldl (fun s e => pyset_add s e.player_id) []
  if ch.length = 0 ∨ ca.length = 0 then
    let early := inp.plays.take 20
    let hp := early.foldl
      (fun s p => if p.player_id ≠ "" ∧ p.team_id ≠ "" ∧ p.team_id = inp.homeId then pyset_add s p.player_id else s) []
    let ap := early.foldl
      (fun s p => if p.player_id ≠ "" ∧ p.team_id ≠ "" ∧ p.team_id ≠ inp.homeId ∧ p.team_id = inp.awayId then pyset_add s p.player_id else s) []
    (if ch.length = 0 then hp.take 5 else ch, if ca.length = 0 then ap.take 5 else ca)
  else (ch, ca)

/-- The ever-observed player sets (lines 553-566): the current lineup plus
every player id appearing in any play of that side. -/
def all_players_init (inp : EnhInput) (cur : List String) (sideHome : Bool) : List String :=
  inp.plays.foldl
    (fun s p =>
      if p.player_id ≠ "" ∧ p.team_id ≠ "" ∧
          (if sideHome then p.team_id = inp.homeId
           else p.team_id ≠ inp.homeId ∧ p.team_id = inp.awayId) then
        pyset_add s p.player_id
      else s)
    cur

/-- Translation of `create_enhanced_play_by_play_dataframe` (lines 499-815),
with explicit fuel for the under-fill loops.  `none` means some under-fill
loop was still running when its fuel ran out; a `none` for every fuel value is
non-termination of the source function. -/
def create_enhanced_play_by_play (inp : EnhInput) (fuel : Nat) : Option (List EnhRow) :=
  let chca := init_lineups inp
  let allH := all_players_init inp chca.1 true
  let allA := all_players_init inp chca.2 false
  enh_go inp fuel { curHome := chca.1, curAway := chca.2, allHome := allH, allAway := allA } inp.plays

/-! ### Lookup helpers and specification-side predicates -/

/-- Lookup of a team row in the team-stats table by team id. -/
def lookup_team (l : List TStats) (tid : String) : Option TStats :=
  l.find? (fun t => t.team_id == tid)

/-- Lookup of a player row in the player-stats table by player id. -/
def lookup_player_stats (l : List PStats) (pid : String) : Option PStats :=
  l.find? (fun s => s.player_id == pid)

/-- Sum of one statistic over the player rows of one team, the right-hand side
of the claim that team totals are player sums. -/
def team_sum {M : Type} [AddCommMonoid M] (f : PStats → M) (ps : List PStats) (tid : String) : M :=
  ((ps.filter (fun p => p.team_id == tid)).map f).sum

/-- Abstract description of what one team's accumulator looks like after the
player fold, parameterised by the state the accumulator started in (`none`
when the team has not been seen yet). -/
def team_fold_from (start : Option TStats) (l : List PStats) : Option TStats :=
  match start, l with
  | some t0, l => some (l.foldl team_add t0)
  | none, [] => none
  | none, q :: qs => some ((q :: qs).foldl team_add (team_zero q))

/-- The made-at-most-attempted property for the three shooting pairs of a
player accumulator. -/
def made_le_attempted (s : PStats) : Prop :=
  s.field_goals_made ≤ s.field_goals_attempted ∧
  s.three_points_made ≤ s.three_points_attempted ∧
  s.free_throws_made ≤ s.free_throws_attempted

/-- The percentage law for a finalised player accumulator: made/attempted when
attempted is positive, else 0. -/
def percentage_law (s : PStats) : Prop :=
  s.field_goal_percentage =
    (if 0 < s.field_goals_attempted then (s.field_goals_made : ℚ) / (s.field_goals_attempted : ℚ) else 0) ∧
  s.three_point_percentage =
    (if 0 < s.three_points_attempted then (s.three_points_made : ℚ) / (s.three_points_attempted : ℚ) else 0) ∧
  s.free_throw_percentage =
    (if 0 < s.free_throws_attempted then (s.free_throws_made : ℚ) / (s.free_throws_attempted : ℚ) else 0)

/-- The made-at-most-attempted property for a team accumulator. -/
def team_made_le_attempted (t : TStats) : Prop :=
  t.field_goals_made ≤ t.field_goals_attempted ∧
  t.three_points_made ≤ t.three_points_attempted ∧
  t.free_throws_made ≤ t.free_throws_attempted

/-- The percentage law for a finalised team accumulator. -/
def team_percentage_law (t : TStats) : Prop :=
  t.field_goal_percentage =
    (if 0 < t.field_goals_attempted then (t.field_goals_made : ℚ) / (t.field_goals_attempted : ℚ) else 0) ∧
  t.three_point_percentage =
    (if 0 < t.three_points_attempted then (t.three_points_made : ℚ) / (t.three_points_attempted : ℚ) else 0) ∧
  t.free_throw_percentage =
    (if 0 < t.free_throws_attempted then (t.free_throws_made : ℚ) / (t.free_throws_attempted : ℚ) else 0)

/-- The vendor action substrings recognised by
`_map_action_to_event_type` (lines 276-303). -/
def recognized_action_tokens : List String :=
  ["good", "miss", "rebound", "assist", "steal", "block", "turnover", "foul", "sub", "timeout"]

/-- The canonical event-kind vocabulary of the specification (the event_kind
enum of spec section 3 without its catch-all OTHER member), written in the
lower-case string form the code uses for event types. -/
def canonical_event_kinds : List String :=
  ["shot", "free_throw", "rebound", "assist", "steal", "block", "turnover", "foul",
   "substitution", "timeout", "jumpball"]

/-! ### Concrete inputs used by the theorems -/

/-- A Genius Sports substitution element with no jersey number (`uni` attribute
missing) and no roster name, stamped mid-period: the malformed input on which
lineup reconstruction diverges. -/
def bad_sub_elem : GeniusElem :=
  { vh := "H", time := "19:00", uni := "", team := "WF", checkname := "",
    action := "SUB", ptype := "IN", vscore := "", hscore := "" }

/-- The plays table obtained from a document containing only `bad_sub_elem`
(runtime element identities fixed to 0). -/
def bad_plays : List GPlay :=
  create_plays_dataframe [] [] (genius_extract_plays (fun _ => 0) [bad_sub_elem])

/-- The single row of `bad_plays`, written out. -/
def bad_play0 : GPlay :=
  { play_id := "play_0", period := 1, time := "19:00", clock := "19:00", team_id := "WF",
    player_id := "", player_name := "", event_type := "substitution", description := "SUB IN",
    points := 0, shot_type := "2pt", shot_distance := "", assist_player_id := "",
    rebound_type := "", foul_type := "", foul_player_id := "", substitution_in := "",
    substitution_out := "", timeout_team := "", jumpball_won := "", jumpball_player := "",
    vh := "H", action := "SUB", play_type := "IN", home_score := "", away_score := "",
    team_name := "", assist_player_name := "", foul_player_name := "", time_seconds := 1140 }

/-- The lineup state right after the substitution transition of `bad_play0`:
the empty player id is on court and is the only home player ever observed. -/
def bad_state : LState :=
  { curHome := [""], curAway := [], allHome := [""], allAway := [] }

/-- The processor input for the divergent document: empty roster, no declared
starters, the source-default home/away ids. -/
def bad_input : EnhInput :=
  { players := [], startHome := [], startAway := [], homeId := "WF", awayId := "Mich",
    plays := bad_plays }

/-- A Genius Sports period-start lineup announcement: a substitution stamped at
clock 20:00. -/
def genius_sub20_elem : GeniusElem :=
  { vh := "H", time := "20:00", uni := "3", team := "WF", checkname := "DOE,JOHN",
    action := "SUB", ptype := "IN", vscore := "", hscore := "" }

/-- An ordinary made three-pointer element. -/
def genius_shot_elem : GeniusElem :=
  { vh := "V", time := "19:45", uni := "5", team := "Mich", checkname := "ROE,JIM",
    action := "GOOD", ptype := "3PTR", vscore := "3", hscore := "0" }

/-- Element used to compare two parses with different runtime identities. -/
def genius_demo_elem : GeniusElem := genius_shot_elem

/-- A generic-format substitution element stamped at the first clock tick of
period 1. -/
def gen_sub_elem : GenElem :=
  { attrs := [("id", "p7"), ("period", "1"), ("time", "20:00"), ("event_type", "substitution"),
              ("team_id", "WF"), ("player_id", "WF_10"), ("substitution_in", "10")],
    children := [] }

/-- A generic-format play element whose `points` attribute is present but not
an integer, so `int()` raises inside `_parse_play_element`. -/
def gen_bad_points_elem : GenElem :=
  { attrs := [("id", "p9"), ("period", "2"), ("points", "abc"), ("event_type", "shot"),
              ("team_id", "WF"), ("player_id", "WF_3")], children := [] }

/-- A play row with every field at its default. -/
def blank_play : GPlay :=
  { play_id := "", period := 1, time := "", clock := "", team_id := "", player_id := "",
    player_name := "", event_type := "", description := "", points := 0, shot_type := "",
    shot_distance := "", assist_player_id := "", rebound_type := "", foul_type := "",
    foul_player_id := "", substitution_in := "", substitution_out := "", timeout_team := "",
    jumpball_won := "", jumpball_player := "", vh := "", action := "", play_type := "",
    home_score := "", away_score := "", team_name := "", assist_player_name := "",
    foul_player_name := "", time_seconds := 0 }

/-- A made two-point shot. -/
def made_two_play : GPlay :=
  { blank_play with
    player_id := "WF_1"
    player_name := "DOE,JOHN"
    team_id := "WF"
    team_name := "Wake Forest"
    event_type := "shot"
    shot_type := "2pt"
    points := 2 }

/-- A missed three-point shot. -/
def missed_three_play : GPlay :=
  { blank_play with
    player_id := "UM_2"
    player_name := "ROE,JIM"
    team_id := "Mich"
    team_name := "Michigan"
    event_type := "shot"
    shot_type := "3pt"
    points := 0 }

/-- A player accumulator with every field at its default. -/
def blank_pstats : PStats :=
  { player_id := "", player_name := "", team_id := "", team_name := "", jersey := "",
    position := "", minutes_played := 0, points := 0, field_goals_made := 0,
    field_goals_attempted := 0, three_points_made := 0, three_points_attempted := 0,
    free_throws_made := 0, free_throws_attempted := 0, rebounds := 0, offensive_rebounds := 0,
    defensive_rebounds := 0, assists := 0, steals := 0, blocks := 0, turnovers := 0,
    fouls := 0, field_goal_percentage := 0, three_point_percentage := 0,
    free_throw_percentage := 0 }

/-- Demo player row 1 (team A). -/
def demo_ps1 : PStats :=
  { blank_pstats with
    player_id := "A_1"
    team_id := "A"
    team_name := "Team A"
    points := 7
    field_goals_made := 3
    field_goals_attempted := 6
    three_points_made := 1
    three_points_attempted := 2
    free_throws_made := 0
    free_throws_attempted := 1
    rebounds := 4
    assists := 2
    steals := 1
    turnovers := 2
    fouls := 3 }

/-- Demo player row 2 (team A). -/
def demo_ps2 : PStats :=
  { blank_pstats with
    player_id := "A_2"
    team_id := "A"
    team_name := "Team A"
    points := 3
    field_goals_made := 1
    field_goals_attempted := 4
    three_points_made := 1
    three_points_attempted := 3
    rebounds := 5
    blocks := 2
    turnovers := 1
    fouls := 1 }

/-- Demo player row 3 (team B). -/
def demo_ps3 : PStats :=
  { blank_pstats with
    player_id := "B_1"
    team_id := "B"
    team_name := "Team B"
    points := 2
    field_goals_made := 1
    field_goals_attempted := 2
    rebounds := 1 }

/-- Demo player-stats table. -/
def demo_player_rows : List PStats := [demo_ps1, demo_ps2, demo_ps3]

/-- The team-A row of `create_team_stats_dataframe demo_player_rows`. -/
def demo_team_A : TStats :=
  { team_id := "A", team_name := "Team A", points := 10, field_goals_made := 4,
    field_goals_attempted := 10, three_points_made := 2, three_points_attempted := 5,
    free_throws_made := 0, free_throws_attempted := 1, rebounds := 9, offensive_rebounds := 0,
    defensive_rebounds := 0, assists := 2, steals := 1, blocks := 2, turnovers := 3,
    fouls := 4, field_goal_percentage := 2 / 5, three_point_percentage := 2 / 5,
    free_throw_percentage := 0 }

/-- The single row of `create_player_stats_dataframe [] [made_two_play]`. -/
def demo_c4_row : PStats :=
  { blank_pstats with
    player_id := "WF_1"
    player_name := "John Doe"
    team_id := "WF"
    team_name := "Wake Forest"
    minutes_played := 32
    points := 2
    field_goals_made := 1
    field_goals_attempted := 1
    three_points_attempted := 1
    field_goal_percentage := 1 }

/-- The single row of the team table built from `demo_c4_row`'s table. -/
def demo_c4_team : TStats :=
  { team_id := "WF", team_name := "Wake Forest", points := 2, field_goals_made := 1,
    field_goals_attempted := 1, three_points_made := 0, three_points_attempted := 1,
    free_throws_made := 0, free_throws_attempted := 0, rebounds := 0, offensive_rebounds := 0,
    defensive_rebounds := 0, assists := 0, steals := 0, blocks := 0, turnovers := 0,
    fouls := 0, field_goal_percentage := 1, three_point_percentage := 0,
    free_throw_percentage := 0 }

/-- The row of `fold_player_stats [] [made_two_play]`, before the minutes
heuristic and percentage finalisation. -/
def demo_c4_raw : PStats :=
  { blank_pstats with
    player_id := "WF_1"
    player_name := "John Doe"
    team_id := "WF"
    team_name := "Wake Forest"
    points := 2
    field_goals_made := 1
    field_goals_attempted := 1
    three_points_attempted := 1 }

/-! ### Theorems -/

/-- One pass of the under-fill loop over the single observed (and on-court)
empty player id makes no progress: the only candidate is already on court. -/
lemma fill_pass_bad_stuck :
    fill_pass (resolve_lineup_name [] [] bad_plays) [""] [""] [] = [] := rfl

/-- The under-fill `while` loop of lines 681-729 never terminates on the
divergent input: every pass leaves the name list empty, so the loop guard
stays true for every amount of fuel. -/
lemma fill_loop_stuck (fuel : Nat) :
    fill_loop (resolve_lineup_name [] [] bad_plays) [""] [""] fuel [] = none := by
  induction fuel with
  | zero => rfl
  | succ n ih =>
    calc fill_loop (resolve_lineup_name [] [] bad_plays) [""] [""] (n + 1) []
        = fill_loop (resolve_lineup_name [] [] bad_plays) [""] [""] n
            (fill_pass (resolve_lineup_name [] [] bad_plays) [""] [""] []) := rfl
      _ = none := by rw [fill_pass_bad_stuck]; exact ih

/-- A row whose home under-fill loop runs out of fuel produces no record. -/
lemma enh_row_none_of_fill_none (inp : EnhInput) (fuel : Nat) (st : LState) (p : GPlay)
    (h : fill_loop (resolve_lineup_name inp.players inp.startHome inp.plays) st.allHome st.curHome
        fuel (emit_base_names (resolve_lineup_name inp.players inp.startHome inp.plays) st.curHome) = none) :
    enh_row inp fuel st p = none := by
  unfold enh_row
  rw [h]

/-- Claim C1: the claim states that every emitted row carries exactly five
names per side, with under-fill recovery and `Player #n` placeholders covering
malformed input.  On `bad_input` (a substitution with no jersey number, so the
on-court set holds only the empty player id and no name can ever be resolved)
the under-fill loop of lines 681-729 makes no progress and never exits, for
every fuel value: no row is ever produced, and the placeholder stage of lines
783-791 is unreachable, refuting the claim on this malformed input. -/
theorem lineup_underfill_never_reaches_five (fuel : Nat) :
    enh_row bad_input fuel bad_state bad_play0 = none := by
  apply enh_row_none_of_fill_none
  exact fill_loop_stuck fuel

/-- Claim C2: the claim states that lineup reconstruction always terminates.
On `bad_input` the whole `create_enhanced_play_by_play_dataframe` pass returns
`none` for every fuel value, i.e. the source function loops forever on this
well-formed document, refuting the claim. -/
theorem enhanced_play_by_play_diverges (fuel : Nat) :
    create_enhanced_play_by_play bad_input fuel = none := by
  show enh_go bad_input fuel
      { curHome := [], curAway := [], allHome := [], allAway := [] } bad_plays = none
  have hbp : bad_plays = [bad_play0] := by decide
  rw [hbp]
  have hs : handle_substitution bad_input
      { curHome := [], curAway := [], allHome := [], allAway := [] } bad_play0 = bad_state := by decide
  have h1 : enh_row bad_input fuel bad_state bad_play0 = none := by
    apply enh_row_none_of_fill_none
    exact fill_loop_stuck fuel
  simp only [enh_go, hs, h1]

lemma team_fold_from_nil (s : Option TStats) : team_fold_from s [] = s := by
  cases s <;> rfl

lemma team_add_id (t : TStats) (p : PStats) : (team_add t p).team_id = t.team_id := rfl

lemma lookup_team_map_finalize (l : List TStats) (tid : String) :
    lookup_team (l.map finalize_team) tid = (lookup_team l tid).map finalize_team := by
  induction l with
  | nil => rfl
  | cons t r ih =>
    rw [List.map_cons]
    by_cases hb : (t.team_id == tid : Bool)
    · unfold lookup_team
      rw [List.find?_cons_of_pos (p := fun t : TStats => t.team_id == tid) _
          (show ((finalize_team t).team_id == tid) = true from hb),
        List.find?_cons_of_pos (p := fun t : TStats => t.team_id == tid) _ hb]
      rfl
    · unfold lookup_team
      rw [List.find?_cons_of_neg (p := fun t : TStats => t.team_id == tid) _
          (show ¬ ((finalize_team t).team_id == tid) = true from hb),
        List.find?_cons_of_neg (p := fun t : TStats => t.team_id == tid) _ hb]
      exact ih

lemma lookup_team_upsert (acc : List TStats) (p : PStats) (tid : String) :
    lookup_team (team_upsert acc p) tid =
      if (p.team_id == tid : Bool) then
        some (team_add ((lookup_team acc tid).getD (team_zero p)) p)
      else lookup_team acc tid := by
  induction acc with
  | nil =>
    by_cases hb : (p.team_id == tid : Bool)
    · show lookup_team [team_add (team_zero p) p] tid = _
      unfold lookup_team
      rw [List.find?_cons_of_pos (p := fun t : TStats => t.team_id == tid) _
          (show ((team_add (team_zero p) p).team_id == tid) = true from hb)]
      simp [hb]
    · show lookup_team [team_add (team_zero p) p] tid = _
      unfold lookup_team
      rw [List.find?_cons_of_neg (p := fun t : TStats => t.team_id == tid) _
          (show ¬ ((team_add (team_zero p) p).team_id == tid) = true from hb)]
      simp [hb]
  | cons t r ih =>
    by_cases ht : (t.team_id == p.team_id : Bool)
    · have h1 : team_upsert (t :: r) p = team_add t p :: r := by
        show (if (t.team_id == p.team_id : Bool) then team_add t p :: r else t :: team_upsert r p) = _
        rw [if_pos ht]
      rw [h1]
      have h2 : t.team_id = p.team_id := by simpa using ht
      by_cases hb : (p.team_id == tid : Bool)
      · have h3 : p.team_id = tid := by simpa using hb
        unfold lookup_team
        rw [List.find?_cons_of_pos (p := fun t : TStats => t.team_id == tid) _
            (show ((team_add t p).team_id == tid) = true by
              rw [team_add_id]; simp [h2, h3]),
          List.find?_cons_of_pos (p := fun t : TStats => t.team_id == tid) _
            (show (t.team_id == tid) = true by simp [h2, h3])]
        simp [hb]
      · have h3 : ¬ p.team_id = tid := by simpa using hb
        unfold lookup_team
        rw [List.find?_cons_of_neg (p := fun t : TStats => t.team_id == tid) _
            (show ¬ ((team_add t p).team_id == tid) = true by
              rw [team_add_id]; simp [h2, h3]),
          List.find?_cons_of_neg (p := fun t : TStats => t.team_id == tid) _
            (show ¬ (t.team_id == tid) = true by simp [h2, h3])]
        simp [hb]
    · have h1 : team_upsert (t :: r) p = t :: team_upsert r p := by
        show (if (t.team_id == p.team_id : Bool) then team_add t p :: r else t :: team_upsert r p) = _
        rw [if_neg ht]
      rw [h1]
      by_cases htid : (t.team_id == tid : Bool)
      · have h2 : t.team_id = tid := by simpa using htid
        have hb : ¬ (p.team_id == tid : Bool) := by
          intro hcon
          have h3 : p.team_id = tid := by simpa using hcon
          exact ht (by simp [h2, h3])
        unfold lookup_team
        rw [List.find?_cons_of_pos (p := fun t : TStats => t.team_id == tid) _ htid,
          List.find?_cons_of_pos (p := fun t : TStats => t.team_id == tid) _ htid]
        simp [hb]
      · unfold lookup_team
        rw [List.find?_cons_of_neg (p := fun t : TStats => t.team_id == tid) _ htid,
          List.find?_cons_of_neg (p := fun t : TStats => t.team_id == tid) _ htid]
        exact ih

lemma foldl_upsert_lookup (ps : List PStats) (acc : List TStats) (tid : String) :
    lookup_team (ps.foldl team_upsert acc) tid =
      team_fold_from (lookup_team acc tid) (ps.filter (fun p => p.team_id == tid)) := by
  induction ps generalizing acc with
  | nil => rw [List.foldl_nil, List.filter_nil, team_fold_from_nil]
  | cons p ps ih =>
    rw [List.foldl_cons, ih, lookup_team_upsert]
    by_cases hb : (p.team_id == tid : Bool)
    · rw [if_pos hb, List.filter_cons_of_pos (p := fun q : PStats => q.team_id == tid) hb]
      cases hacc : lookup_team acc tid with
      | none =>
        show team_fold_from (some (team_add (team_zero p) p)) _ = _
        unfold team_fold_from
        rfl
      | some t0 =>
        show team_fold_from (some (team_add t0 p)) _ = _
        unfold team_fold_from
        rfl
    · rw [if_neg hb, List.filter_cons_of_neg (p := fun q : PStats => q.team_id == tid) hb]

lemma foldl_team_add_field {M : Type} [AddCommMonoid M] (f : TStats → M) (g : PStats → M)
    (hfg : ∀ t p, f (team_add t p) = f t + g p) :
    ∀ (l : List PStats) (t0 : TStats), f (l.foldl team_add t0) = f t0 + (l.map g).sum := by
  intro l
  induction l with
  | nil => intro t0; simp
  | cons p l ih =>
    intro t0
    rw [List.foldl_cons, ih, hfg, List.map_cons, List.sum_cons, add_assoc]

/-- Claim C3: every counter of a row in the team-stats table equals the sum of
that counter over the player rows of that team: team totals are a post-hoc sum
of the player accumulators. -/
theorem team_totals_are_player_sums (ps : List PStats) (tid : String) (t : TStats)
    (h : lookup_team (create_team_stats_dataframe ps) tid = some t) :
    t.points = team_sum (fun p => p.points) ps tid ∧
    t.field_goals_made = team_sum (fun p => p.field_goals_made) ps tid ∧
    t.field_goals_attempted = team_sum (fun p => p.field_goals_attempted) ps tid ∧
    t.three_points_made = team_sum (fun p => p.three_points_made) ps tid ∧
    t.three_points_attempted = team_sum (fun p => p.three_points_attempted) ps tid ∧
    t.free_throws_made = team_sum (fun p => p.free_throws_made) ps tid ∧
    t.free_throws_attempted = team_sum (fun p => p.free_throws_attempted) ps tid ∧
    t.rebounds = team_sum (fun p => p.rebounds) ps tid ∧
    t.assists = team_sum (fun p => p.assists) ps tid ∧
    t.steals = team_sum (fun p => p.steals) ps tid ∧
    t.blocks = team_sum (fun p => p.blocks) ps tid ∧
    t.turnovers = team_sum (fun p => p.turnovers) ps tid ∧
    t.fouls = team_sum (fun p => p.fouls) ps tid := by
  unfold create_team_stats_dataframe at h
  rw [lookup_team_map_finalize, foldl_upsert_lookup] at h
  have hnil : lookup_team [] tid = none := rfl
  rw [hnil] at h
  cases hf : List.filter (fun p => p.team_id == tid) ps with
  | nil =>
    rw [hf] at h
    simp [team_fold_from] at h
  | cons q qs =>
    rw [hf] at h
    have ht : t = finalize_team ((q :: qs).foldl team_add (team_zero q)) := by
      have h2 : team_fold_from none (q :: qs) = some ((q :: qs).foldl team_add (team_zero q)) := rfl
      rw [h2] at h
      simp at h
      exact h.symm
    refine ⟨?_, ?_, ?_, ?_, ?_, ?_, ?_, ?_, ?_, ?_, ?_, ?_, ?_⟩
    · rw [ht]
      have hs := foldl_team_add_field (fun t => t.points) (fun p => p.points) (fun _ _ => rfl) (q :: qs) (team_zero q)
      show ((q :: qs).foldl team_add (team_zero q)).points = team_sum (fun p => p.points) ps tid
      rw [hs]
      unfold team_sum
      rw [hf]
      simp [team_zero]
    · rw [ht]
      have hs := foldl_team_add_field (fun t => t.field_goals_made) (fun p => p.field_goals_made) (fun _ _ => rfl) (q :: qs) (team_zero q)
      show ((q :: qs).foldl team_add (team_zero q)).field_goals_made = team_sum (fun p => p.field_goals_made) ps tid
      rw [hs]
      unfold team_sum
      rw [hf]
      simp [team_zero]
    · rw [ht]
      have hs := foldl_team_add_field (fun t => t.field_goals_attempted) (fun p => p.field_goals_attempted) (fun _ _ => rfl) (q :: qs) (team_zero q)
      show ((q :: qs).foldl team_add (team_zero q)).field_goals_attempted = team_sum (fun p => p.field_goals_attempted) ps tid
      rw [hs]
      unfold team_sum
      rw [hf]
      simp [team_zero]
    · rw [ht]
      have hs := foldl_team_add_field (fun t => t.three_points_made) (fun p => p.three_points_made) (fun _ _ => rfl) (q :: qs) (team_zero q)
      show ((q :: qs).foldl team_add (team_zero q)).three_points_made = team_sum (fun p => p.three_points_made) ps tid
      rw [hs]
      unfold team_sum
      rw [hf]
      simp [team_zero]
    · rw [ht]
      have hs := foldl_team_add_field (fun t => t.three_points_attempted) (fun p => p.three_points_attempted) (fun _ _ => rfl) (q :: qs) (team_zero q)
      show ((q :: qs).foldl team_add (team_zero q)).three_points_attempted = team_sum (fun p => p.three_points_attempted) ps tid
      rw [hs]
      unfold team_sum
      rw [hf]
      simp [team_zero]
    · rw [ht]
      have hs := foldl_team_add_field (fun t => t.free_throws_made) (fun p => p.free_throws_made) (fun _ _ => rfl) (q :: qs) (team_zero q)
      show ((q :: qs).foldl team_add (team_zero q)).free_throws_made = team_sum (fun p => p.free_throws_made) ps tid
      rw [hs]
      unfold team_sum
      rw [hf]
      simp [team_zero]
    · rw [ht]
      have hs := foldl_team_add_field (fun t => t.free_throws_attempted) (fun p => p.free_throws_attempted) (fun _ _ => rfl) (q :: qs) (team_zero q)
      show ((q :: qs).foldl team_add (team_zero q)).free_throws_attempted = team_sum (fun p => p.free_throws_attempted) ps tid
      rw [hs]
      unfold team_sum
      rw [hf]
      simp [team_zero]
    · rw [ht]
      have hs := foldl_team_add_field (fun t => t.rebounds) (fun p => p.rebounds) (fun _ _ => rfl) (q :: qs) (team_zero q)
      show ((q :: qs).foldl team_add (team_zero q)).rebounds = team_sum (fun p => p.rebounds) ps tid
      rw [hs]
      unfold team_sum
      rw [hf]
      simp [team_zero]
    · rw [ht]
      have hs := foldl_team_add_field (fun t => t.assists) (fun p => p.assists) (fun _ _ => rfl) (q :: qs) (team_zero q)
      show ((q :: qs).foldl team_add (team_zero q)).assists = team_sum (fun p => p.assists) ps tid
      rw [hs]
      unfold team_sum
      rw [hf]
      simp [team_zero]
    · rw [ht]
      have hs := foldl_team_add_field (fun t => t.steals) (fun p => p.steals) (fun _ _ => rfl) (q :: qs) (team_zero q)
      show ((q :: qs).foldl team_add (team_zero q)).steals = team_sum (fun p => p.steals) ps tid
      rw [hs]
      unfold team_sum
      rw [hf]
      simp [team_zero]
    · rw [ht]
      have hs := foldl_team_add_field (fun t => t.blocks) (fun p => p.blocks) (fun _ _ => rfl) (q :: qs) (team_zero q)
      show ((q :: qs).foldl team_add (team_zero q)).blocks = team_sum (fun p => p.blocks) ps tid
      rw [hs]
      unfold team_sum
      rw [hf]
      simp [team_zero]
    · rw [ht]
      have hs := foldl_team_add_field (fun t => t.turnovers) (fun p => p.turnovers) (fun _ _ => rfl) (q :: qs) (team_zero q)
      show ((q :: qs).foldl team_add (team_zero q)).turnovers = team_sum (fun p => p.turnovers) ps tid
      rw [hs]
      unfold team_sum
      rw [hf]
      simp [team_zero]
    · rw [ht]
      have hs := foldl_team_add_field (fun t => t.fouls) (fun p => p.fouls) (fun _ _ => rfl) (q :: qs) (team_zero q)
      show ((q :: qs).foldl team_add (team_zero q)).fouls = team_sum (fun p => p.fouls) ps tid
      rw [hs]
      unfold team_sum
      rw [hf]
      simp [team_zero]

/-- Witness for C3 at a concrete three-player, two-team table. -/
theorem team_totals_are_player_sums_witness :
    demo_team_A.points = team_sum (fun p => p.points) demo_player_rows "A" ∧
    demo_team_A.field_goals_made = team_sum (fun p => p.field_goals_made) demo_player_rows "A" ∧
    demo_team_A.field_goals_attempted = team_sum (fun p => p.field_goals_attempted) demo_player_rows "A" ∧
    demo_team_A.three_points_made = team_sum (fun p => p.three_points_made) demo_player_rows "A" ∧
    demo_team_A.three_points_attempted = team_sum (fun p => p.three_points_attempted) demo_player_rows "A" ∧
    demo_team_A.free_throws_made = team_sum (fun p => p.free_throws_made) demo_player_rows "A" ∧
    demo_team_A.free_throws_attempted = team_sum (fun p => p.free_throws_attempted) demo_player_rows "A" ∧
    demo_team_A.rebounds = team_sum (fun p => p.rebounds) demo_player_rows "A" ∧
    demo_team_A.assists = team_sum (fun p => p.assists) demo_player_rows "A" ∧
    demo_team_A.steals = team_sum (fun p => p.steals) demo_player_rows "A" ∧
    demo_team_A.blocks = team_sum (fun p => p.blocks) demo_player_rows "A" ∧
    demo_team_A.turnovers = team_sum (fun p => p.turnovers) demo_player_rows "A" ∧
    demo_team_A.fouls = team_sum (fun p => p.fouls) demo_player_rows "A" :=
  team_totals_are_player_sums demo_player_rows "A" demo_team_A (by
    norm_num [create_team_stats_dataframe, demo_player_rows, team_upsert, team_add, team_zero,
      finalize_team, lookup_team, List.find?, demo_ps1, demo_ps2, demo_ps3, blank_pstats,
      demo_team_A, List.foldl])

lemma upd_points_mla (p : GPlay) (s : PStats) (h : made_le_attempted s) :
    made_le_attempted (upd_points p s) := by
  unfold upd_points
  split <;> exact h

lemma upd_shot_mla (p : GPlay) (s : PStats) (h : made_le_attempted s) :
    made_le_attempted (upd_shot p s) := by
  obtain ⟨h1, h2, h3⟩ := h
  unfold made_le_attempted upd_shot
  dsimp only
  (repeat' split) <;> refine ⟨?_, ?_, ?_⟩ <;> dsimp only <;> omega

lemma upd_ft_mla (p : GPlay) (s : PStats) (h : made_le_attempted s) :
    made_le_attempted (upd_ft p s) := by
  obtain ⟨h1, h2, h3⟩ := h
  unfold made_le_attempted upd_ft
  dsimp only
  (repeat' split) <;> refine ⟨?_, ?_, ?_⟩ <;> dsimp only <;> omega

lemma upd_rebound_mla (p : GPlay) (s : PStats) (h : made_le_attempted s) :
    made_le_attempted (upd_rebound p s) := by
  obtain ⟨h1, h2, h3⟩ := h
  unfold made_le_attempted upd_rebound
  dsimp only
  (repeat' split) <;> refine ⟨?_, ?_, ?_⟩ <;> dsimp only <;> omega

lemma update_preserves_mla (p : GPlay) (s : PStats) (h : made_le_attempted s) :
    made_le_attempted (update_player_stats p s) := by
  unfold update_player_stats
  dsimp only
  have h0 := upd_points_mla p s h
  (repeat' split) <;>
    first
      | exact upd_shot_mla p _ h0
      | exact upd_ft_mla p _ h0
      | exact upd_rebound_mla p _ h0
      | exact h0

lemma init_mla (players : List (String × PInfo)) (p : GPlay) :
    made_le_attempted (init_player_stats players p) :=
  ⟨le_rfl, le_rfl, le_rfl⟩

lemma mod_first_inv (P : PStats → Prop) (pid : String) (f : PStats → PStats)
    (hf : ∀ x, P x → P (f x)) :
    ∀ l : List PStats, (∀ x ∈ l, P x) → ∀ s ∈ mod_first l pid f, P s := by
  intro l
  induction l with
  | nil => intro _ s hs; simp [mod_first] at hs
  | cons a r ih =>
    intro hl s hs
    unfold mod_first at hs
    by_cases hb : (a.player_id == pid : Bool)
    · rw [if_pos hb] at hs
      rcases List.mem_cons.mp hs with h | h
      · subst h; exact hf a (hl a (List.mem_cons_self a r))
      · exact hl s (List.mem_cons_of_mem a h)
    · rw [if_neg hb] at hs
      rcases List.mem_cons.mp hs with h | h
      · rw [h]; exact hl a (List.mem_cons_self a r)
      · exact ih (fun x hx => hl x (List.mem_cons_of_mem a hx)) s h

lemma stats_step_inv (P : PStats → Prop) (players : List (String × PInfo))
    (hupd : ∀ p s, P s → P (update_player_stats p s))
    (hinit : ∀ p, P (init_player_stats players p))
    (acc : List PStats) (p : GPlay) (hacc : ∀ s ∈ acc, P s) :
    ∀ s ∈ stats_step players acc p, P s := by
  unfold stats_step
  split
  · exact hacc
  · apply mod_first_inv P p.player_id (update_player_stats p) (hupd p)
    split
    · exact hacc
    · intro x hx
      rcases List.mem_append.mp hx with h | h
      · exact hacc x h
      · rw [List.mem_singleton.mp h]; exact hinit p

lemma fold_stats_inv (P : PStats → Prop) (players : List (String × PInfo))
    (hupd : ∀ p s, P s → P (update_player_stats p s))
    (hinit : ∀ p, P (init_player_stats players p)) :
    ∀ (plays : List GPlay) (acc : List PStats), (∀ s ∈ acc, P s) →
      ∀ s ∈ plays.foldl (stats_step players) acc, P s := by
  intro plays
  induction plays with
  | nil => intro acc hacc; exact hacc
  | cons p plays ih =>
    intro acc hacc
    rw [List.foldl_cons]
    exact ih (stats_step players acc p) (stats_step_inv P players hupd hinit acc p hacc)

lemma minutes_fold_inv (P : PStats → Prop)
    (hmin : ∀ (s : PStats) (q : ℚ), P s → P { s with minutes_played := q }) :
    ∀ (counts : List (String × Nat)) (m : Nat) (stats : List PStats), (∀ s ∈ stats, P s) →
      ∀ s ∈ counts.foldl
        (fun st kv =>
          if ((st.find? (fun s => s.player_id == kv.1)).isSome : Bool) then
            mod_first st kv.1 (fun s =>
              let est : ℚ := if 0 < m then ((kv.2 : ℚ) / (m : ℚ)) * 40 * (4 / 5) else 0
              let est := max est 1
              let est := min est 40
              { s with minutes_played := est })
          else st) stats, P s := by
  intro counts
  induction counts with
  | nil => intro m stats h; exact h
  | cons kv counts ih =>
    intro m stats h
    rw [List.foldl_cons]
    apply ih
    split
    · apply mod_first_inv P kv.1 _ _ _ h
      intro x hx
      exact hmin x _ hx
    · exact h

lemma calculate_minutes_inv (P : PStats → Prop)
    (hmin : ∀ (s : PStats) (q : ℚ), P s → P { s with minutes_played := q })
    (stats : List PStats) (plays : List GPlay) (h : ∀ s ∈ stats, P s) :
    ∀ s ∈ calculate_minutes_played stats plays, P s := by
  unfold calculate_minutes_played
  split
  · exact h
  · exact minutes_fold_inv P hmin _ _ stats h

lemma create_player_stats_laws (players : List (String × PInfo)) (plays : List GPlay) :
    ∀ s ∈ create_player_stats_dataframe players plays, made_le_attempted s ∧ percentage_law s := by
  intro s hs
  unfold create_player_stats_dataframe at hs
  rcases List.mem_map.mp hs with ⟨s', hs', rfl⟩
  have hmla : made_le_attempted s' := by
    apply calculate_minutes_inv made_le_attempted _ _ plays _ s' hs'
    · intro x q hx; exact hx
    · exact fold_stats_inv made_le_attempted players update_preserves_mla
        (init_mla players) plays [] (by intro x hx; simp at hx)
  refine ⟨hmla, rfl, rfl, rfl⟩

lemma team_add_mla (t : TStats) (p : PStats) (ht : team_made_le_attempted t)
    (hp : made_le_attempted p) : team_made_le_attempted (team_add t p) := by
  obtain ⟨t1, t2, t3⟩ := ht
  obtain ⟨p1, p2, p3⟩ := hp
  exact ⟨Nat.add_le_add t1 p1, Nat.add_le_add t2 p2, Nat.add_le_add t3 p3⟩

lemma team_upsert_mla (p : PStats) (hp : made_le_attempted p) :
    ∀ acc : List TStats, (∀ t ∈ acc, team_made_le_attempted t) →
      ∀ t ∈ team_upsert acc p, team_made_le_attempted t := by
  intro acc
  induction acc with
  | nil =>
    intro _ t ht
    rw [List.mem_singleton.mp ht]
    exact team_add_mla _ p ⟨le_rfl, le_rfl, le_rfl⟩ hp
  | cons a r ih =>
    intro hacc t ht
    unfold team_upsert at ht
    by_cases hb : (a.team_id == p.team_id : Bool)
    · rw [if_pos hb] at ht
      rcases List.mem_cons.mp ht with h | h
      · rw [h]; exact team_add_mla a p (hacc a (List.mem_cons_self a r)) hp
      · exact hacc t (List.mem_cons_of_mem a h)
    · rw [if_neg hb] at ht
      rcases List.mem_cons.mp ht with h | h
      · rw [h]; exact hacc a (List.mem_cons_self a r)
      · exact ih (fun x hx => hacc x (List.mem_cons_of_mem a hx)) t h

lemma team_fold_mla :
    ∀ (ps : List PStats) (acc : List TStats), (∀ p ∈ ps, made_le_attempted p) →
      (∀ t ∈ acc, team_made_le_attempted t) →
      ∀ t ∈ ps.foldl team_upsert acc, team_made_le_attempted t := by
  intro ps
  induction ps with
  | nil => intro acc _ hacc; exact hacc
  | cons p ps ih =>
    intro acc hps hacc
    rw [List.foldl_cons]
    exact ih (team_upsert acc p) (fun q hq => hps q (List.mem_cons_of_mem p hq))
      (team_upsert_mla p (hps p (List.mem_cons_self p ps)) acc hacc)

lemma create_team_stats_laws (ps : List PStats) (hps : ∀ p ∈ ps, made_le_attempted p) :
    ∀ t ∈ create_team_stats_dataframe ps, team_made_le_attempted t ∧ team_percentage_law t := by
  intro t ht
  unfold create_team_stats_dataframe at ht
  rcases List.mem_map.mp ht with ⟨t', ht', rfl⟩
  have h1 : team_made_le_attempted t' :=
    team_fold_mla ps [] hps (by intro x hx; simp at hx) t' ht'
  exact ⟨h1, rfl, rfl, rfl⟩

/-- Claim C4: for every player or team accumulator produced by the aggregation
pass (over any roster and any play stream), each of the three shooting pairs
satisfies made at most attempted, and the finalised percentage is
made/attempted when attempted is positive and 0.0 when attempted is zero. -/
theorem shooting_accumulator_laws (players : List (String × PInfo)) (plays : List GPlay) :
    (∀ s ∈ create_player_stats_dataframe players plays,
      made_le_attempted s ∧ percentage_law s) ∧
    (∀ t ∈ create_team_stats_dataframe (create_player_stats_dataframe players plays),
      team_made_le_attempted t ∧ team_percentage_law t) := by
  refine ⟨create_player_stats_laws players plays, ?_⟩
  exact create_team_stats_laws _ (fun p hp => (create_player_stats_laws players plays p hp).1)

lemma demo_c4_table :
    create_player_stats_dataframe [] [made_two_play] = [demo_c4_row] := by
  have h1 : create_player_stats_dataframe [] [made_two_play]
      = [finalize_player { demo_c4_raw with
          minutes_played := min (max ((((1 : Nat) : ℚ) / ((1 : Nat) : ℚ)) * 40 * (4 / 5)) 1) 40 }] := rfl
  rw [h1]
  have h2 : finalize_player { demo_c4_raw with
        minutes_played := min (max ((((1 : Nat) : ℚ) / ((1 : Nat) : ℚ)) * 40 * (4 / 5)) 1) 40 }
      = demo_c4_row := by
    simp [finalize_player, demo_c4_raw, demo_c4_row, blank_pstats]
    norm_num
  rw [h2]

lemma demo_c4_team_table :
    create_team_stats_dataframe (create_player_stats_dataframe [] [made_two_play])
      = [demo_c4_team] := by
  rw [demo_c4_table]
  have h1 : create_team_stats_dataframe [demo_c4_row]
      = [finalize_team (team_add (team_zero demo_c4_row) demo_c4_row)] := rfl
  rw [h1]
  have h2 : finalize_team (team_add (team_zero demo_c4_row) demo_c4_row) = demo_c4_team := by
    simp [finalize_team, team_add, team_zero, demo_c4_row, demo_c4_team, blank_pstats]
  rw [h2]

/-- Witness for C4 at a one-play document (a made two-point shot). -/
theorem shooting_accumulator_laws_witness :
    (made_le_attempted demo_c4_row ∧ percentage_law demo_c4_row) ∧
    (team_made_le_attempted demo_c4_team ∧ team_percentage_law demo_c4_team) :=
  ⟨(shooting_accumulator_laws [] [made_two_play]).1 demo_c4_row
      (by rw [demo_c4_table]; exact List.mem_singleton_self _),
   (shooting_accumulator_laws [] [made_two_play]).2 demo_c4_team
      (by rw [demo_c4_team_table]; exact List.mem_singleton_self _)⟩

lemma genius_from_no_sub20 (ident : Nat → Int) :
    ∀ (elems : List GeniusElem) (i : Nat) (p : GPlay),
      p ∈ genius_extract_plays_from ident i elems →
      ¬(p.time = "20:00" ∧ p.event_type = "substitution") := by
  intro elems
  induction elems with
  | nil => intro i p hp; simp [genius_extract_plays_from] at hp
  | cons e es ih =>
    intro i p hp
    unfold genius_extract_plays_from at hp
    dsimp only at hp
    split at hp
    · exact ih (i + 1) p hp
    · rcases List.mem_cons.mp hp with h | h
      · rw [h]; assumption
      · exact ih (i + 1) p h

/-- Claim C5 (amended): the Genius Sports adapter suppresses every
substitution event stamped at game clock 20:00 (the first tick of a period)
from its emitted stream; no such event can be a member of its output, for any
document and any element identities.  (The generic adapter does not perform
this filtering: see the counterexample.) -/
theorem genius_suppresses_period_start_subs (ident : Nat → Int) (elems : List GeniusElem)
    (p : GPlay) (hmem : p ∈ genius_extract_plays ident elems) :
    ¬(p.time = "20:00" ∧ p.event_type = "substitution") :=
  genius_from_no_sub20 ident elems 0 p hmem

/-- Witness for the amended C5: a document with a 20:00 lineup announcement
and an ordinary shot; the shot is emitted and is not a 20:00 substitution. -/
theorem genius_suppresses_period_start_subs_witness :
    ¬((parse_genius_play 1 genius_shot_elem).time = "20:00" ∧
      (parse_genius_play 1 genius_shot_elem).event_type = "substitution") :=
  genius_suppresses_period_start_subs (fun _ => 1) [genius_sub20_elem, genius_shot_elem]
    (parse_genius_play 1 genius_shot_elem) (by decide)

/-- Counterexample to C5 as stated ("for every adapter"): the generic adapter
emits a substitution stamped at game clock 20:00 in period 1 unchanged. -/
theorem generic_emits_period_start_sub :
    (generic_extract_plays [gen_sub_elem]).map (fun p => (p.time, p.event_type, p.period)) =
      [("20:00", "substitution", 1)] := by decide

/-- Claim C6 (amended): the vendor-code mapping is total and never fails; an
action matching none of the recognised substrings yields points 0 and the
lower-cased action string itself as the event type (not a fixed OTHER tag). -/
theorem unrecognized_action_echoes_lowered_code (action ptype : String)
    (h : ∀ t ∈ recognized_action_tokens, pyIn t (pyLower action) = false) :
    map_action_to_event_type action ptype = pyLower action ∧
    calculate_points action ptype = 0 := by
  have hg := h "good" (by simp [recognized_action_tokens])
  have hm := h "miss" (by simp [recognized_action_tokens])
  have hr := h "rebound" (by simp [recognized_action_tokens])
  have ha := h "assist" (by simp [recognized_action_tokens])
  have hs := h "steal" (by simp [recognized_action_tokens])
  have hb := h "block" (by simp [recognized_action_tokens])
  have ht := h "turnover" (by simp [recognized_action_tokens])
  have hf := h "foul" (by simp [recognized_action_tokens])
  have hsb := h "sub" (by simp [recognized_action_tokens])
  have hto := h "timeout" (by simp [recognized_action_tokens])
  unfold map_action_to_event_type calculate_points
  simp [hg, hm, hr, ha, hs, hb, ht, hf, hsb, hto]

/-- Witness for the amended C6 at the unrecognised vendor code DUNK. -/
theorem unrecognized_action_echoes_lowered_code_witness :
    map_action_to_event_type "DUNK" "X" = pyLower "DUNK" ∧
    calculate_points "DUNK" "X" = 0 :=
  unrecognized_action_echoes_lowered_code "DUNK" "X" (by decide)

/-- Counterexample to C6 as stated: the vendor action SHOT matches none of the
recognised substrings, yet its emitted event type is "shot" — the canonical
SHOT kind — rather than an OTHER tag (points are 0 as claimed). -/
theorem unrecognized_action_can_collide_with_shot :
    (∀ t ∈ recognized_action_tokens, pyIn t (pyLower "SHOT") = false) ∧
    map_action_to_event_type "SHOT" "" = "shot" ∧
    "shot" ∈ canonical_event_kinds ∧
    map_action_to_event_type "SHOT" "" ≠ "other" ∧
    calculate_points "SHOT" "" = 0 := by
  refine ⟨by decide, by decide, by decide, by decide, by decide⟩

/-- Claim C7: the play record is a pure function of the document content
except for `play_id`, which is derived from `hash(play_elem)` — the CPython
object-identity hash of the element, an input supplied by the runtime.  Two
parses of the same element with different runtime identities agree on every
field except `play_id`, and their `play_id`s differ. -/
theorem play_id_derived_from_runtime_identity :
    (∀ (h1 h2 : Int) (e : GeniusElem),
      erase_play_id (parse_genius_play h1 e) = erase_play_id (parse_genius_play h2 e)) ∧
    (parse_genius_play 1 genius_demo_elem).play_id = "play_1" ∧
    (parse_genius_play 2 genius_demo_elem).play_id = "play_2" ∧
    ("play_1" : String) ≠ "play_2" := by
  refine ⟨fun h1 h2 e => rfl, by decide, by decide, by decide⟩

/-- Claim C8 evaluated at the failing inputs: a made two-point shot increments
`three_points_attempted` (it should not), and a missed three-point shot does
not increment it (it should).  Both runs are shown through the full
aggregation pass. -/
theorem three_point_attempt_miscount :
    ((create_player_stats_dataframe [] [made_two_play]).map
        (fun s => (s.player_id, s.three_points_attempted, s.three_points_made))) =
      [("WF_1", 1, 0)] ∧
    ((create_player_stats_dataframe [] [missed_three_play]).map
        (fun s => (s.player_id, s.three_points_attempted, s.field_goals_attempted))) =
      [("UM_2", 0, 1)] :=
  ⟨by decide, by decide⟩

/-- Claim C9: the clamp of lines 591-597 keeps the on-court set at five or
fewer members for every enumeration, but the members it keeps are the first
five of the set's hash-order enumeration — with the enumeration
["F", "B", "C", "D", "E", "A"] (players inserted in order A..F), the
earliest-inserted player A is dropped and the most recently added F is kept,
contradicting the claimed oldest-inserted-first trimming rule. -/
theorem lineup_clamp_truncates_by_set_order :
    (∀ setOrder : List String, (clamp_on_court setOrder).length ≤ 5) ∧
    clamp_on_court ["F", "B", "C", "D", "E", "A"] = ["F", "B", "C", "D", "E"] ∧
    "A" ∉ clamp_on_court ["F", "B", "C", "D", "E", "A"] ∧
    "F" ∈ clamp_on_court ["F", "B", "C", "D", "E", "A"] := by
  refine ⟨?_, by decide, by decide, by decide⟩
  intro setOrder
  unfold clamp_on_court
  split
  · simp
  · omega

/-- Claim C10: a play element whose parse fails (returns `None`) is silently
dropped from the generic adapter's emitted stream — the surrounding elements
are emitted exactly as if the failing element were absent, and no error is
propagated. -/
theorem failing_play_element_silently_dropped (xs ys : List GenElem) (e : GenElem)
    (h : parse_play_element e = none) :
    generic_extract_plays (xs ++ e :: ys) = generic_extract_plays xs ++ generic_extract_plays ys := by
  unfold generic_extract_plays
  rw [List.filterMap_append, List.filterMap_cons, h]

/-- Witness for C10: an element with a present non-integer `points` attribute
parses to `None` and is dropped from the stream. -/
theorem failing_play_element_silently_dropped_witness :
    parse_play_element gen_bad_points_elem = none ∧
    generic_extract_plays ([gen_sub_elem] ++ gen_bad_points_elem :: []) =
      generic_extract_plays [gen_sub_elem] ++ generic_extract_plays [] :=
  ⟨by decide, failing_play_element_silently_dropped [gen_sub_elem] [] gen_bad_points_elem (by decide)⟩
